import Mathlib

/-!
Verification of the scoutai-action browser core: the Site Crawler
(`src/crawler/index.ts`) and the Flow Executor (the Playwright executor
module).  JavaScript strings are modelled as `String` (or `List Char` where
character-level reasoning is needed), `getAttribute` results as `String`
with `""` standing for `null` (every use site in the source collapses the
two through JS truthiness), fallible `await`s as `Except String` results
supplied by an environment record, and wall-clock time as a `Nat` threaded
through the executor.
-/

namespace ScoutAI

/-! ## JavaScript string primitives -/

/-- JS `String.prototype.includes`: substring containment. -/
def jsIncludes (s sub : String) : Bool :=
  decide (sub.data <:+: s.data)

/-- JS `String.prototype.startsWith`. -/
def jsStartsWith (s pre : String) : Bool :=
  pre.data.isPrefixOf s.data

/-- JS `String.prototype.split(',')` (single-character separator). -/
def splitComma : List Char → List (List Char)
  | [] => [[]]
  | c :: cs =>
    let r := splitComma cs
    if c = ',' then [] :: r
    else
      match r with
      | h :: t => (c :: h) :: t
      | [] => [[c]]

/-- JS `String.prototype.trim`: strip whitespace at both ends. -/
def jsTrim (s : String) : String :=
  ⟨((s.data.dropWhile Char.isWhitespace).reverse.dropWhile Char.isWhitespace).reverse⟩

/-- JS `String.prototype.substring(0, n)`. -/
def strTake (n : Nat) (s : String) : String :=
  ⟨s.data.take n⟩

/-- JS falsy-default idiom `s || d` on strings: `""` is falsy. -/
def jsOr (s d : String) : String :=
  if s = "" then d else s

/-- JS `x || d` where `x : string | null | undefined` (absent or `""` falls
back to the default). -/
def jsOrOpt (o : Option String) (d : String) : String :=
  match o with
  | some t => jsOr t d
  | none => d

/-- Collapse every maximal whitespace run to a single space:
JS `replace(/\s+/g, ' ')`. -/
def collapseWS : List Char → List Char
  | [] => []
  | c :: cs =>
    if Char.isWhitespace c then ' ' :: collapseWS (cs.dropWhile Char.isWhitespace)
    else c :: collapseWS cs
termination_by cs => cs.length
decreasing_by
  · exact Nat.lt_succ_of_le (List.dropWhile_sublist _).length_le
  · simp

/-! ## JS numbers: `parseInt` and the `wait` step duration -/

/-- A JS runtime value occurring in a step's `value` field (the planner may
hand either a string or a number; the executor checks `typeof`). -/
inductive JsVal where
  | str (s : String)
  | num (n : Int)
deriving DecidableEq

/-- JS `toString` on a step value (integral numbers print in decimal). -/
def jsValToString : JsVal → String
  | .str s => s
  | .num n => toString n

/-- Numeric value of a digit run; `none` when the run is empty. -/
def digitsVal (cs : List Char) : Option Nat :=
  let ds := cs.takeWhile Char.isDigit
  if ds = [] then none
  else some (ds.foldl (fun acc c => acc * 10 + (c.toNat - '0'.toNat)) 0)

/-- JS `parseInt(s, 10)`: skip leading whitespace, optional sign, then read
a maximal digit run; `none` models `NaN` (no digits found). -/
def jsParseInt (s : String) : Option Int :=
  let cs := s.data.dropWhile Char.isWhitespace
  match cs with
  | '-' :: rest => (digitsVal rest).map (fun n => -(n : Int))
  | '+' :: rest => (digitsVal rest).map (fun n => (n : Int))
  | rest => (digitsVal rest).map (fun n => (n : Int))

/-- The `wait` step duration exactly as computed at the `wait` case of
`executeStep`:
`typeof step.value === 'number' ? step.value : parseInt(step.value?.toString() || '1000', 10)`.
`none` models `NaN`. -/
def waitDuration (v : Option JsVal) : Option Int :=
  match v with
  | some (.num n) => some n
  | some (.str s) => jsParseInt (jsOr s "1000")
  | none => jsParseInt "1000"

/-- Milliseconds actually slept by `page.waitForTimeout(waitTime)`: a
non-negative count, with `NaN` (and negative values) behaving as `0` the
way `setTimeout` clamps them. -/
def pauseMs (v : Option JsVal) : Nat :=
  match waitDuration v with
  | some n => n.toNat
  | none => 0

/-! ## Crawler page-context HTML truncation -/

/-- The truncation marker appended by the crawler's in-page extractor. -/
def truncMarker : List Char := "<!-- truncated -->".data

/-- Body-markup truncation from `crawlPageWithContext`'s `page.evaluate`
block: `if (html.length > 50000) html = html.substring(0, 50000) + '<!-- truncated -->'`.
The input is `body.innerHTML` after the non-essential tags
(`script`, `style`, `noscript`, `iframe`, `svg`, stylesheet links) have been
removed from the cloned document. -/
def truncateBodyHtml (html : List Char) : List Char :=
  if html.length > 50000 then html.take 50000 ++ truncMarker else html

/-- The full simplified-HTML computation: body branch when a `<body>`
exists, else `clone.innerHTML.substring(0, 50000)`. -/
def simplifiedHtml (body : Option (List Char)) (docInner : List Char) : List Char :=
  match body with
  | some b => truncateBodyHtml b
  | none => docInner.take 50000

/-! ## The Locator Resolver (`smartLocator`) -/

/-- A resolved Playwright locator: `page.getByText`, `page.locator(css)`,
or an `.or(...)` chain. -/
inductive Locator where
  | byText (t : String)
  | css (sel : String)
  | or (a b : Locator)
deriving DecidableEq

/-- Drop one leading quote character (`"` or `'`), as the first alternative
of the regex `/^["']|["']$/g`. -/
def stripLeadQuote : List Char → List Char
  | [] => []
  | c :: cs => if c = '"' ∨ c.toNat = 39 then cs else c :: cs

/-- `selector.slice(5).replace(/^["']|["']$/g, '')`: the text argument of a
`text=`-prefixed selector. -/
def textArg (sel : String) : String :=
  ⟨(stripLeadQuote ((stripLeadQuote (sel.data.drop 5)).reverse)).reverse⟩

/-- Characters in the emoji block tested by `getSelectorVariants`
(`/[\u{1F300}-\u{1F9FF}]/u`). -/
def isEmojiChar (c : Char) : Bool :=
  0x1F300 ≤ c.toNat && c.toNat ≤ 0x1F9FF

/-- JS `\w`: word character. -/
def isWordChar (c : Char) : Bool :=
  c.isAlpha || c.isDigit || c = '_'

/-- Global replace of `/([emoji])(\w)/` with `'$1 $2'`: insert a space
between an emoji and an adjacent word character. -/
def insertSpaceAfterEmoji : List Char → List Char
  | e :: w :: rest =>
    if isEmojiChar e && isWordChar w then e :: ' ' :: w :: insertSpaceAfterEmoji rest
    else e :: insertSpaceAfterEmoji (w :: rest)
  | cs => cs

/-- Global replace of `/([emoji])\s+/` with `'$1'`: drop whitespace runs
directly after an emoji. -/
def dropSpaceAfterEmoji : List Char → List Char
  | [] => []
  | e :: rest =>
    if isEmojiChar e then e :: dropSpaceAfterEmoji (rest.dropWhile Char.isWhitespace)
    else e :: dropSpaceAfterEmoji rest
termination_by cs => cs.length
decreasing_by
  · exact Nat.lt_succ_of_le (List.dropWhile_sublist _).length_le
  · simp

/-- Try the pattern `:has-text("([^"]+)")` at the head of `cs`, returning
the captured text. -/
def hasTextAt (cs : List Char) : Option (List Char) :=
  let pat := ":has-text(\"".data
  if pat.isPrefixOf cs then
    let rest := cs.drop pat.length
    let t := rest.takeWhile (fun c => c ≠ '"')
    match t, rest.drop t.length with
    | [], _ => none
    | _, '"' :: ')' :: _ => some t
    | _, _ => none
  else none

/-- First match of the regex `:has-text\("([^"]+)"\)` in a selector. -/
def hasTextCapture : List Char → Option (List Char)
  | [] => none
  | c :: cs =>
    match hasTextAt (c :: cs) with
    | some t => some t
    | none => hasTextCapture cs

/-- JS `String.prototype.replace` with a string pattern: replace the first
occurrence only. -/
def replaceFirst (pat rep : List Char) : List Char → List Char
  | [] => []
  | c :: cs =>
    if pat.isPrefixOf (c :: cs) then rep ++ (c :: cs).drop pat.length
    else c :: replaceFirst pat rep cs

/-- `getSelectorVariants`: whitespace-inserted and whitespace-removed
variants of the `:has-text("...")` clause when its text contains an emoji. -/
def getSelectorVariants (selector : String) : List String :=
  match hasTextCapture selector.data with
  | none => [selector]
  | some t =>
    if t.any isEmojiChar then
      let old := ":has-text(\"".data ++ t ++ "\")".data
      let withSpace := insertSpaceAfterEmoji t
      let vs1 : List String :=
        if withSpace ≠ t then
          [⟨replaceFirst old (":has-text(\"".data ++ withSpace ++ "\")".data) selector.data⟩]
        else []
      let withoutSpace := dropSpaceAfterEmoji t
      let vs2 : List String :=
        if withoutSpace ≠ t then
          [⟨replaceFirst old (":has-text(\"".data ++ withoutSpace ++ "\")".data) selector.data⟩]
        else []
      [selector] ++ vs1 ++ vs2
    else [selector]

/-- `singleLocator`: trim, then `text=` prefix becomes `getByText`, anything
else a plain structural locator. -/
def singleLocator (sel : String) : Locator :=
  let sel := jsTrim sel
  if jsStartsWith sel "text=" then .byText (textArg sel) else .css sel

/-- Left-fold an `.or(...)` chain, as the source's loop over alternatives. -/
def orChain (first : Locator) (rest : List Locator) : Locator :=
  rest.foldl .or first

/-- `PlaywrightExecutor.smartLocator`: `text=` prefix, comma-separated
alternatives containing a `text=` segment, emoji whitespace variants, or a
plain structural selector, in that order. -/
def smartLocator (selector : String) : Locator :=
  if jsStartsWith selector "text=" then .byText (textArg selector)
  else
    let commaCase : Option Locator :=
      if jsIncludes selector "," then
        let parts := (splitComma selector.data).map (fun cs => jsTrim ⟨cs⟩)
        if parts.any (fun p => jsStartsWith p "text=") then
          match parts with
          | [] => none
          | p :: ps => some (orChain (singleLocator p) (ps.map singleLocator))
        else none
      else none
    match commaCase with
    | some l => l
    | none =>
      let variants := getSelectorVariants selector
      match variants with
      | v :: v2 :: vs => orChain (.css v) ((v2 :: vs).map .css)
      | _ => .css selector

/-- An element as seen by locator matching: its tag-level CSS behaviour is
abstracted by a semantics parameter, its text content is explicit. -/
structure DomElem where
  tag : String
  textContent : String

/-- Matching semantics of a resolved locator against an element, for a given
CSS semantics `cssSem`.  `getByText t` matches elements whose text content
contains `t` (Playwright's default substring matching). -/
def locMatches (cssSem : String → DomElem → Bool) : Locator → DomElem → Bool
  | .byText t, e => jsIncludes e.textContent t
  | .css sel, e => cssSem sel e
  | .or a b, e => locMatches cssSem a e || locMatches cssSem b e

/-! ## Selector Synthesizer (crawler `crawlPageWithContext` extraction)

Attributes read with `getAttribute` are modelled as `String` with `""`
standing for `null`: every use site in the source either tests them for JS
truthiness or coalesces them with `|| ''`, so the two are indistinguishable
there. -/

/-- An `<a href>` element as seen by the link extractor. -/
structure LinkElem where
  dataTestid : String
  id : String
  href : String
  textContent : String
deriving DecidableEq

/-- Link selector synthesis (`crawlPageWithContext`, links block): testid,
bare `#id`, href attribute, text clause, positional fallback. -/
def linkSelector (a : LinkElem) (i : Nat) : String :=
  let text := strTake 50 (jsTrim a.textContent)
  if a.dataTestid ≠ "" then "[data-testid=\"" ++ (a.dataTestid ++ "\"]")
  else if a.id ≠ "" then "#" ++ a.id
  else if a.href ≠ "" ∧ ¬ jsStartsWith a.href "javascript:" then
    "a[href=\"" ++ (a.href ++ "\"]")
  else if text ≠ "" then "a:has-text(\"" ++ (strTake 30 text ++ "\")")
  else "a >> nth=" ++ toString i

/-- A `<button>` / submit-input / `[role="button"]` element. -/
structure BtnElem where
  dataTestid : String
  id : String
  textContent : String
  valueAttr : String
  typeAttr : String
  tagName : String
deriving DecidableEq

/-- Button selector synthesis (crawler buttons block): testid, bare `#id`,
type-qualified `:has-text` for `<button>` tags, plain `:has-text`,
positional fallback.  The visible text is whitespace-normalized and
truncated. -/
def buttonSelector (b : BtnElem) (i : Nat) : String :=
  let rawText := jsOr (jsTrim b.textContent) b.valueAttr
  let text := strTake 50 ⟨collapseWS rawText.data⟩
  let ty := jsOr b.typeAttr "button"
  let tag := b.tagName.toLower
  if b.dataTestid ≠ "" then "[data-testid=\"" ++ (b.dataTestid ++ "\"]")
  else if b.id ≠ "" then "#" ++ b.id
  else if text ≠ "" ∧ tag = "button" then
    "button[type=\"" ++ (ty ++ ("\"]:has-text(\"" ++ (strTake 30 text ++ "\")")))
  else if text ≠ "" then "button:has-text(\"" ++ (strTake 30 text ++ "\")")
  else "button >> nth=" ++ toString i

/-- A `<form>` element. -/
structure FormElem where
  dataTestid : String
  id : String
  nameAttr : String
deriving DecidableEq

/-- Form selector synthesis: testid, bare `#id`, name attribute, positional
fallback. -/
def formSelector (f : FormElem) (i : Nat) : String :=
  if f.dataTestid ≠ "" then "[data-testid=\"" ++ (f.dataTestid ++ "\"]")
  else if f.id ≠ "" then "#" ++ f.id
  else if f.nameAttr ≠ "" then "form[name=\"" ++ (f.nameAttr ++ "\"]")
  else "form >> nth=" ++ toString i

/-- An `<input>`/`<textarea>`/`<select>` element.  The two DOM label
lookups (`label[for=id]` and the closest ancestor `<label>`) are modelled
as the text contents those queries would return (`""` when the element is
absent). -/
structure InputElem where
  dataTestid : String
  nameAttr : String
  placeholder : String
  id : String
  typeAttr : String
  tagName : String
  labelForText : String
  parentLabelText : String
deriving DecidableEq

/-- `type` attribute with the form-input default:
`getAttribute('type') || (tagName === 'TEXTAREA' ? 'textarea' : 'text')`. -/
def inputType (e : InputElem) : String :=
  jsOr e.typeAttr (if e.tagName = "TEXTAREA" then "textarea" else "text")

/-- Associated label text: `label[for=id]` first (only consulted when the
element has an id), else the ancestor label, both trimmed and truncated. -/
def inputLabel (e : InputElem) : String :=
  let l1 := if e.id ≠ "" then strTake 30 (jsTrim e.labelForText) else ""
  if l1 ≠ "" then l1 else strTake 30 (jsTrim e.parentLabelText)

/-- Form-input selector synthesis, first eight rules (before the positional
last resort): testid, name, placeholder, label-scoped, semantic email /
password types, colon-free bare `#id`, type scoped to the form selector.
Returns `""` when no rule applies. -/
def formInputSelectorCore (formSel : String) (e : InputElem) : String :=
  if e.dataTestid ≠ "" then "[data-testid=\"" ++ (e.dataTestid ++ "\"]")
  else if e.nameAttr ≠ "" then "[name=\"" ++ (e.nameAttr ++ "\"]")
  else if e.placeholder ≠ "" then "[placeholder=\"" ++ (e.placeholder ++ "\"]")
  else if inputLabel e ≠ "" then "text=\"" ++ (inputLabel e ++ "\" >> .. >> input")
  else if inputType e = "email" then "input[type=\"email\"]"
  else if inputType e = "password" then "input[type=\"password\"]"
  else if e.id ≠ "" ∧ jsIncludes e.id ":" = false then "#" ++ e.id
  else if inputType e ≠ "" ∧ inputType e ≠ "hidden" then
    formSel ++ (" input[type=\"" ++ (inputType e ++ "\"]"))
  else ""

/-- Form-input selector synthesis including the `nth` last resort within
the form. -/
def formInputSelector (formSel : String) (e : InputElem) (j : Nat) : String :=
  if formInputSelectorCore formSel e = "" ∧ inputType e ≠ "hidden" then
    formSel ++ (" input >> nth=" ++ toString j)
  else formInputSelectorCore formSel e

/-- Standalone-input selector synthesis (inputs outside any form): testid,
name, placeholder, semantic email / password types, colon-free bare `#id`,
else `""` (the element is then dropped from the collected list). -/
def standaloneInputSelector (e : InputElem) : String :=
  if e.dataTestid ≠ "" then "[data-testid=\"" ++ (e.dataTestid ++ "\"]")
  else if e.nameAttr ≠ "" then "[name=\"" ++ (e.nameAttr ++ "\"]")
  else if e.placeholder ≠ "" then "[placeholder=\"" ++ (e.placeholder ++ "\"]")
  else if jsOr e.typeAttr "text" = "email" then "input[type=\"email\"]"
  else if jsOr e.typeAttr "text" = "password" then "input[type=\"password\"]"
  else if e.id ≠ "" ∧ jsIncludes e.id ":" = false then "#" ++ e.id
  else ""

/-! ## Authenticator (crawler `authenticate`) -/

/-- Credentials for authenticating during crawl. -/
structure CrawlCredentials where
  email : String
  password : String
  loginUrl : String
  emailSelector : Option String := none
  passwordSelector : Option String := none
  submitSelector : Option String := none
  successIndicator : Option String := none
deriving DecidableEq

/-- Result of authentication attempt. -/
structure AuthResult where
  success : Bool
  postLoginUrl : Option String := none
  error : Option String := none
deriving DecidableEq

/-- Fallback selector chain for the email field. -/
def emailFallback : String :=
  "input[type=\"email\"], input[name=\"email\"], input[id=\"email\"], [placeholder*=\"email\" i]"

/-- Fallback selector chain for the password field. -/
def passwordFallback : String :=
  "input[type=\"password\"], input[name=\"password\"], input[id=\"password\"]"

/-- Fallback selector chain for the submit control. -/
def submitFallback : String :=
  "button[type=\"submit\"], input[type=\"submit\"], button:has-text(\"Log in\"), button:has-text(\"Sign in\")"

/-- Default error text when no visible error element explains a login
failure. -/
def loginFailedMsg : String :=
  "Login failed - still on login page after submit. Check credentials."

/-- Environment for one authentication attempt: the outcome of each
fallible browser operation, the page URL observed after submit, and the
error-element probe (outer `none` = element not visible or probe threw;
inner value = its `textContent`, which may be `null`). -/
structure AuthEnv where
  newURL : String → String → Except String String
  goto : String → Option String
  fill : String → String → Option String
  click : String → Option String
  waitURLPattern : String → Option String
  waitSelectorVisible : String → Option String
  pageUrl : String
  errorProbe : Nat → Option (Option String)

/-- Turn an operation outcome (`some msg` = thrown error) into the
`Except` pipeline. -/
def orThrow : Option String → Except String Unit
  | none => .ok ()
  | some m => .error m

/-- The fallible pipeline of `authenticate` up to the post-submit URL read:
login-URL resolution, navigation, the two fills, the submit click, and the
configured success indicator (the indicator-less `waitForURL` is wrapped in
its own try/catch in the source and cannot throw out). -/
def authSteps (env : AuthEnv) (baseUrl : String) (c : CrawlCredentials) :
    Except String Unit := do
  let loginUrl ←
    if jsStartsWith c.loginUrl "http" then pure c.loginUrl
    else env.newURL c.loginUrl baseUrl
  orThrow (env.goto loginUrl)
  orThrow (env.fill (c.emailSelector.getD emailFallback) c.email)
  orThrow (env.fill (c.passwordSelector.getD passwordFallback) c.password)
  orThrow (env.click (c.submitSelector.getD submitFallback))
  match c.successIndicator with
  | some ind =>
    if jsStartsWith ind "/" then orThrow (env.waitURLPattern ind)
    else orThrow (env.waitSelectorVisible ind)
  | none => pure ()

/-- The human-readable failure reason extracted from the error-element
probe: the element's text when it is visible and nonempty, else the default
message (`errorText || '...'`). -/
def probedError (p : Option (Option String)) : String :=
  match p with
  | some (some t) => jsOr t loginFailedMsg
  | _ => loginFailedMsg

/-- `authenticate(context, baseUrl, credentials)` from the crawler: run the
login pipeline, then judge success by the post-submit URL — still on a
`/login`/`/signin` URL means failure, probing the first
`[class*="error"], [class*="alert"], [role="alert"]` element with a
1-second timeout for a reason.  Any thrown error is caught and reported as
a failed `AuthResult`. -/
def authenticate (env : AuthEnv) (baseUrl : String) (c : CrawlCredentials) : AuthResult :=
  match authSteps env baseUrl c with
  | .error m => { success := false, error := some m }
  | .ok _ =>
    let postLoginUrl := env.pageUrl
    if jsIncludes postLoginUrl "/login" || jsIncludes postLoginUrl "/signin" then
      { success := false, error := some (probedError (env.errorProbe 1000)) }
    else
      { success := true, postLoginUrl := some postLoginUrl }

/-- A concrete environment whose submit lands back on the login page with a
visible "Invalid credentials" alert. -/
def authEnvW : AuthEnv :=
  { newURL := fun s _ => .ok s, goto := fun _ => none, fill := fun _ _ => none,
    click := fun _ => none, waitURLPattern := fun _ => none,
    waitSelectorVisible := fun _ => none, pageUrl := "https://app.example/login",
    errorProbe := fun _ => some (some "Invalid credentials") }

/-- Concrete credentials for the authentication witness. -/
def credsW : CrawlCredentials :=
  { email := "u@example.com", password := "pw", loginUrl := "/login" }


/-! ## Flow Executor (`PlaywrightExecutor` / `executeFlows`) -/

/-- `PlaywrightStep` from the API client.  The `value` field is typed
`string` in TypeScript but the executor checks `typeof step.value ===
'number'` at runtime, so the model keeps both shapes. -/
structure PlaywrightStep where
  action : String
  selector : Option String := none
  value : Option JsVal := none
  description : String
deriving DecidableEq

/-- `FlowPlan` from the API client. -/
structure FlowPlan where
  id : String
  name : String
  priority : Int
  reasoning : String
  steps : List PlaywrightStep
deriving DecidableEq

/-- `StepResult` from the API client (status is `passed`/`failed`). -/
structure StepResult where
  description : String
  status : String
  duration_ms : Nat
  error : Option String := none
deriving DecidableEq

/-- `ResultPayload` from the API client (status is
`passed`/`failed`/`skipped`). -/
structure ResultPayload where
  flow_name : String
  status : String
  duration_ms : Nat
  error_message : Option String := none
  steps : List StepResult
  screenshot_urls : List String
  viewport : String
deriving DecidableEq

/-- `TestAccount` from the API client (the executor only consults its
presence; its fields drive the executor-level authentication). -/
structure TestAccount where
  id : String
  name : String
  role : String
  email : String
  password : String
  auth_type : String
  login_url : String
  email_selector : Option String := none
  password_selector : Option String := none
  submit_selector : Option String := none
  success_indicator : Option String := none
deriving DecidableEq

/-- Pixel dimensions of a viewport profile. -/
structure ViewportDims where
  width : Nat
  height : Nat
deriving DecidableEq

/-- The `VIEWPORTS` table: `desktop` and `mobile` only. -/
def VIEWPORTS (v : String) : Option ViewportDims :=
  if v = "desktop" then some ⟨1280, 720⟩
  else if v = "mobile" then some ⟨375, 667⟩
  else none

/-- `VIEWPORTS[viewport] || VIEWPORTS.desktop`: the executor's silent
desktop fallback for unrecognized viewport names. -/
def viewportDims (v : String) : ViewportDims :=
  (VIEWPORTS v).getD ⟨1280, 720⟩

/-- The mobile user agent string from the executor module. -/
def MOBILE_USER_AGENT : String :=
  "Mozilla/5.0 (iPhone; CPU iPhone OS 16_0 like Mac OS X) AppleWebKit/605.1.15 (KHTML, like Gecko) Version/16.0 Mobile/15E148 Safari/604.1"

/-- Options passed to `browser.newContext` by `executeFlow`. -/
structure ContextOptions where
  viewport : ViewportDims
  storageState : Option String := none
  userAgent : Option String := none
  isMobile : Bool := false
  hasTouch : Bool := false
deriving DecidableEq

/-- The context options built at the top of `executeFlow`: viewport
dimensions (with desktop fallback), saved auth state if present, and the
mobile-specific settings only for the exact name `mobile`. -/
def contextOptionsFor (storageState : Option String) (viewport : String) : ContextOptions :=
  if viewport = "mobile" then
    { viewport := viewportDims viewport, storageState := storageState,
      userAgent := some MOBILE_USER_AGENT, isMobile := true, hasTouch := true }
  else
    { viewport := viewportDims viewport, storageState := storageState }

/-- A fallible browser call issued by `executeStep`. -/
inductive BCall where
  | goto (url : String)
  | click (l : Locator)
  | fill (l : Locator) (value : String)
  | waitVisible (l : Locator)
deriving DecidableEq

/-- Environment of one executor run: outcome and elapsed milliseconds of
each browser call as a function of the wall-clock time it starts at.
Screenshots, context open/close and `initialize` are modelled as always
succeeding (their failures are unhandled in the source and would abort the
whole run, a case outside every claim); `authOk` tells whether the
executor-level authentication saved a storage state. -/
structure ExecEnv where
  step : Nat → BCall → Except String Unit × Nat
  shot : Nat → String → Nat
  openCtx : Nat → ContextOptions → Nat
  closeCtx : Nat → Nat
  initTime : Nat
  authOk : Bool

/-- `navigate` URL resolution:
`step.value.toString().startsWith('http') ? value : baseUrl + value`. -/
def resolveNavUrl (baseUrl v : String) : String :=
  if jsStartsWith v "http" then v else baseUrl ++ v

/-- `PlaywrightExecutor.executeStep`: dispatch on the step's `action`
string, with the source's validation errors, `smartLocator` resolution,
the `wait` pause, the no-op `screenshot` case, and the unknown-action
error. -/
def executeStep (env : ExecEnv) (baseUrl : String) (t : Nat) (s : PlaywrightStep) :
    Except String Unit × Nat :=
  if s.action = "navigate" then
    match s.value with
    | none => (.error "Navigate requires a URL value", t)
    | some v =>
      let pr := env.step t (.goto (resolveNavUrl baseUrl (jsValToString v)))
      (pr.1, t + pr.2)
  else if s.action = "click" then
    match s.selector with
    | none => (.error "Click requires a selector", t)
    | some sel =>
      let pr := env.step t (.click (smartLocator sel))
      (pr.1, t + pr.2)
  else if s.action = "fill" then
    match s.selector with
    | none => (.error "Fill requires a selector", t)
    | some sel =>
      match s.value with
      | none => (.error "Fill requires a value", t)
      | some v =>
        let pr := env.step t (.fill (smartLocator sel) (jsValToString v))
        (pr.1, t + pr.2)
  else if s.action = "assert" then
    match s.selector with
    | none => (.error "Assert requires a selector", t)
    | some sel =>
      let pr := env.step t (.waitVisible (smartLocator sel))
      (pr.1, t + pr.2)
  else if s.action = "wait" then (.ok (), t + pauseMs s.value)
  else if s.action = "screenshot" then (.ok (), t)
  else (.error ("Unknown action: " ++ s.action), t)

/-- Outcome of `executeFlow`'s step loop: recorded step results, failure
screenshots, the flow error message (present exactly when a step failed),
and the wall-clock time after the loop. -/
structure StepsOutcome where
  steps : List StepResult
  shots : List String
  errMsg : Option String
  time : Nat

/-- The step loop of `executeFlow`: execute steps strictly in order,
recording a passed result per success; on the first failure record the
failed result with its error, take a full-page screenshot named by flow id
, viewport and step index, and stop (fail-fast `break`). -/
def runSteps (env : ExecEnv) (baseUrl sdir fid vp : String) :
    List PlaywrightStep → Nat → Nat → StepsOutcome
  | [], _, t => ⟨[], [], none, t⟩
  | s :: rest, i, t =>
    let es := executeStep env baseUrl t s
    match es.1 with
    | .ok _ =>
      let o := runSteps env baseUrl sdir fid vp rest (i + 1) es.2
      ⟨{ description := s.description, status := "passed", duration_ms := es.2 - t } :: o.steps,
        o.shots, o.errMsg, o.time⟩
    | .error m =>
      let path := sdir ++ "/" ++ fid ++ "-" ++ vp ++ "-failure-" ++ toString i ++ ".png"
      ⟨[{ description := s.description, status := "failed", duration_ms := es.2 - t,
          error := some m }], [path],
        some ("Step failed: " ++ s.description ++ " - " ++ m), es.2 + env.shot es.2 path⟩

/-- `PlaywrightExecutor.executeFlow`: open a context configured for the
viewport (with the saved auth state when present), run the step loop, take
the final screenshot only on full success, always close the context, and
assemble the `ResultPayload` (the `viewport` field carries the requested
name verbatim). -/
def executeFlow (env : ExecEnv) (baseUrl sdir : String) (storageState : Option String)
    (flow : FlowPlan) (viewport : String) (t0 : Nat) : ResultPayload × Nat :=
  let t1 := t0 + env.openCtx t0 (contextOptionsFor storageState viewport)
  let o := runSteps env baseUrl sdir flow.id viewport flow.steps 0 t1
  let final :=
    match o.errMsg with
    | none =>
      let p := sdir ++ "/" ++ flow.id ++ "-" ++ viewport ++ "-final.png"
      (o.shots ++ [p], o.time + env.shot o.time p)
    | some _ => (o.shots, o.time)
  let t2 := final.2 + env.closeCtx final.2
  ({ flow_name := flow.name,
     status := if o.errMsg.isSome then "failed" else "passed",
     duration_ms := t2 - t0,
     error_message := o.errMsg,
     steps := o.steps,
     screenshot_urls := final.1,
     viewport := viewport }, t2)

/-- Stable insertion into a descending-priority list: an element moves
ahead only of strictly lower priorities, as with the comparator
`(a, b) => b.priority - a.priority` under a stable `Array.prototype.sort`. -/
def insertFlowDesc (f : FlowPlan) : List FlowPlan → List FlowPlan
  | [] => [f]
  | g :: gs => if g.priority < f.priority then f :: g :: gs else g :: insertFlowDesc f gs

/-- `[...flows].sort((a, b) => b.priority - a.priority)`: the sorted copy. -/
def sortFlowsDesc : List FlowPlan → List FlowPlan
  | [] => []
  | f :: fs => insertFlowDesc f (sortFlowsDesc fs)

/-- The inner loop of `executeFlows`: run each sorted flow at one viewport,
checking elapsed wall-clock time against the budget before starting each
flow (`if (elapsed > maxDurationMs) break`). -/
def runFlows (env : ExecEnv) (baseUrl sdir : String) (maxDur startT : Nat)
    (ss : Option String) (vp : String) : List FlowPlan → Nat → List ResultPayload × Nat
  | [], t => ([], t)
  | f :: fs, t =>
    if maxDur < t - startT then ([], t)
    else
      let r := executeFlow env baseUrl sdir ss f vp t
      let rest := runFlows env baseUrl sdir maxDur startT ss vp fs r.2
      (r.1 :: rest.1, rest.2)

/-- The outer loop of `executeFlows`: one pass of the sorted flows per
requested viewport, stopping after a viewport group once the budget is
exceeded. -/
def runViewports (env : ExecEnv) (baseUrl sdir : String) (maxDur startT : Nat)
    (ss : Option String) (sorted : List FlowPlan) :
    List String → Nat → List ResultPayload × Nat
  | [], t => ([], t)
  | v :: vs, t =>
    let g := runFlows env baseUrl sdir maxDur startT ss v sorted t
    if maxDur < g.2 - startT then (g.1, g.2)
    else
      let rest := runViewports env baseUrl sdir maxDur startT ss sorted vs g.2
      (g.1 ++ rest.1, rest.2)

/-- What a caller observes after `executeFlows` returns: the result list and
the content of its own `flows` array.  JS `Array.prototype.sort` mutates its
receiver, but the source sorts the fresh spread copy `[...flows]`, so the
caller's array is handed back untouched while the run iterates the sorted
copy. -/
structure ExecRunOutcome where
  results : List ResultPayload
  callerFlows : List FlowPlan
  endTime : Nat

/-- `executeFlows(flows, baseUrl, maxDurationMs, testAccount, viewports)`:
record the start time, initialize (launching the browser and, given a test
account, authenticating once — a success stores the session at the fixed
storage-state path), sort a copy of the flows by descending priority, and
run every viewport group under the wall-clock budget.  The executor is
constructed with the default `./screenshots` directory. -/
def executeFlows (env : ExecEnv) (flows : List FlowPlan) (baseUrl : String)
    (maxDurationMs : Nat) (testAccount : Option TestAccount) (viewports : List String)
    (t0 : Nat) : ExecRunOutcome :=
  let t1 := t0 + env.initTime
  let storageState :=
    if testAccount.isSome && env.authOk then some "./scoutai-auth-state.json" else none
  let r := runViewports env baseUrl "./screenshots" maxDurationMs t0 storageState
    (sortFlowsDesc flows) viewports t1
  ⟨r.1, flows, r.2⟩

/-- The flow shape of claim C1: navigate, fill a selector, click a
selector. -/
def threeStepFlow (fid fname : String) (prio : Int) (rsn : String) (v w : JsVal)
    (a b : String) (d1 d2 d3 : String) : FlowPlan :=
  ⟨fid, fname, prio, rsn,
    [⟨"navigate", none, some v, d1⟩, ⟨"fill", some a, some w, d2⟩,
      ⟨"click", some b, none, d3⟩]⟩

/-- Concrete environment where every browser call succeeds in 1ms except
clicks, which fail. -/
def envC1 : ExecEnv :=
  { step := fun _ c =>
      match c with
      | .click _ => (.error "element not found", 1)
      | _ => (.ok (), 1),
    shot := fun _ _ => 1, openCtx := fun _ _ => 1, closeCtx := fun _ => 1,
    initTime := 0, authOk := false }

/-- Concrete environment where every browser call succeeds in 1ms. -/
def envOk : ExecEnv :=
  { step := fun _ _ => (.ok (), 1), shot := fun _ _ => 1, openCtx := fun _ _ => 1,
    closeCtx := fun _ => 1, initTime := 0, authOk := false }

/-- The concrete C1 flow: navigate home, fill the email field, click the
submit button. -/
def flowC1 : FlowPlan :=
  threeStepFlow "login-flow" "Login" 5 "" (.str "/") (.str "u@x.test") "#email" "#submit"
    "open home" "fill email" "click submit"

/-! ## Site Crawler (`crawlSite`) -/

/-- Collected link information. -/
structure LinkInfo where
  href : String
  text : String
  selector : String
deriving DecidableEq

/-- Collected input information. -/
structure InputInfo where
  name : String
  type : String
  placeholder : String
  selector : String
  label : Option String := none
deriving DecidableEq

/-- Collected form information. -/
structure FormInfo where
  action : String
  method : String
  selector : String
  inputs : List InputInfo
deriving DecidableEq

/-- Collected button information. -/
structure ButtonInfo where
  text : String
  type : String
  selector : String
deriving DecidableEq

/-- Structural context of one crawled page. -/
structure PageContext where
  url : String
  title : String
  html : String
  links : List LinkInfo
  forms : List FormInfo
  buttons : List ButtonInfo
  inputs : List InputInfo
deriving DecidableEq

/-- What `crawlPageWithContext` extracts besides the url it was given. -/
structure PageData where
  title : String
  html : String
  links : List LinkInfo
  forms : List FormInfo
  buttons : List ButtonInfo
  inputs : List InputInfo
deriving DecidableEq

/-- Result of a site crawl including auth status. -/
structure CrawlResult where
  pages : List PageContext
  authResult : Option AuthResult := none
deriving DecidableEq

/-- Crawl environment: `new URL(rel, base).href` resolution (which can
throw on invalid input) and the outcome of `crawlPageWithContext` on a
url (an error models any navigation/evaluation failure, which the loop
catches and logs). -/
structure CrawlEnv where
  newURL : String → String → Except String String
  fetch : String → Except String PageData

/-- `crawlPageWithContext` returns the context under the url it was asked
to crawl. -/
def mkPage (url : String) (pd : PageData) : PageContext :=
  ⟨url, pd.title, pd.html, pd.links, pd.forms, pd.buttons, pd.inputs⟩

/-- The internal-link enqueueing loop: root-relative or base-prefixed
hrefs are resolved and appended to the queue tail unless already visited
or queued.  A resolution error aborts the remaining links (the exception
is caught by the surrounding try, after the page was already recorded). -/
def enqueueLinks (env : CrawlEnv) (baseUrl : String) (visited : List String) :
    List LinkInfo → List String → List String
  | [], queue => queue
  | l :: ls, queue =>
    if jsStartsWith l.href "/" || jsStartsWith l.href baseUrl then
      match env.newURL l.href baseUrl with
      | .error _ => queue
      | .ok u =>
        enqueueLinks env baseUrl visited ls
          (if !visited.contains u && !queue.contains u then queue ++ [u] else queue)
    else enqueueLinks env baseUrl visited ls queue

/-- The crawl loop of `crawlSite`: while the queue is nonempty and fewer
than `maxPages` pages are collected, pop the head, normalize it (a thrown
resolution error here is uncaught and aborts the crawl), skip if visited,
mark visited regardless of fetch outcome, record the page and enqueue its
internal links on success, and skip the page on a fetch failure. -/
def crawlLoop (env : CrawlEnv) (baseUrl : String) (maxPages : Nat) :
    List String → List String → List PageContext → Except String (List PageContext)
  | [], _, pages => .ok pages
  | url :: rest, visited, pages =>
    if h : pages.length < maxPages then
      match env.newURL url baseUrl with
      | .error e => .error e
      | .ok normalizedUrl =>
        if visited.contains normalizedUrl then
          crawlLoop env baseUrl maxPages rest visited pages
        else
          match env.fetch normalizedUrl with
          | .error _ =>
            crawlLoop env baseUrl maxPages rest (visited ++ [normalizedUrl]) pages
          | .ok pd =>
            crawlLoop env baseUrl maxPages
              (enqueueLinks env baseUrl (visited ++ [normalizedUrl]) pd.links rest)
              (visited ++ [normalizedUrl]) (pages ++ [mkPage normalizedUrl pd])
    else .ok pages
termination_by toVisit _ pages => (maxPages - pages.length, toVisit.length)

/-- `crawlSite(baseUrl, maxPages, priorityPaths, credentials)`: optionally
authenticate (never aborting on failure), seed the queue with priority
paths, then the post-login landing url, then the base url (each once), and
run the crawl loop. -/
def crawlSite (env : CrawlEnv) (aenv : AuthEnv) (baseUrl : String) (maxPages : Nat)
    (priorityPaths : List String) (credentials : Option CrawlCredentials) :
    Except String CrawlResult :=
  let authResult := credentials.map (authenticate aenv baseUrl)
  let startUrl := jsOrOpt (authResult.bind AuthResult.postLoginUrl) baseUrl
  let q1 := priorityPaths.foldl (fun q p =>
    match env.newURL p baseUrl with
    | .ok fullUrl => if q.contains fullUrl then q else q ++ [fullUrl]
    | .error _ => q) []
  let q2 := if q1.contains startUrl then q1 else q1 ++ [startUrl]
  let q3 := if startUrl ≠ baseUrl ∧ ¬ q2.contains baseUrl then q2 ++ [baseUrl] else q2
  (crawlLoop env baseUrl maxPages q3 [] []).map (fun pages => ⟨pages, authResult⟩)

/-- Concrete page data for the crawl witness. -/
def pdW : PageData := ⟨"Home", "<div></div>", [], [], [], []⟩

/-- Concrete crawl environment: identity resolver, every fetch succeeds. -/
def crawlEnvW : CrawlEnv := { newURL := fun s _ => .ok s, fetch := fun _ => .ok pdW }

/-- The crawl result of the C2 witness run. -/
def crawlResW : CrawlResult := ⟨[mkPage "/about" pdW, mkPage "https://site" pdW], none⟩


/-! ## Theorems -/

/-! ## Claim theorems: wait duration (C4), html truncation (C5), locator
resolution (C7) -/

/-- C4 (counterexample): the claim says an unparseable `wait` value falls
back to the 1000ms default, but for the nonempty unparseable string
`"abc"` the code computes `parseInt('abc', 10) = NaN` (the `|| '1000'`
fallback only fires for a missing or empty value), so the pause duration is
not 1000ms. -/
theorem waitDuration_unparseable_cx :
    waitDuration (some (.str "abc")) = none
    ∧ waitDuration (some (.str "abc")) ≠ some 1000
    ∧ pauseMs (some (.str "abc")) = 0 := by
  decide

/-- C4 (amended): the pause duration equals the step's value when it is a
number; for a nonempty string it equals `parseInt(s, 10)` (hence the
numeric value for a numeric string, and `NaN` — not the 1000 default — when
unparseable); the 1000ms default applies exactly when the value is absent
or the empty string. -/
theorem waitDuration_spec :
    (∀ n : Int, waitDuration (some (.num n)) = some n)
    ∧ (∀ s : String, s ≠ "" → waitDuration (some (.str s)) = jsParseInt s)
    ∧ waitDuration none = some 1000
    ∧ waitDuration (some (.str "")) = some 1000 := by
  refine ⟨fun n => rfl, fun s hs => ?_, by decide, by decide⟩
  unfold waitDuration jsOr
  simp [hs]

/-- C4 witness: the amended statement applied at a numeric value and at a
numeric string. -/
theorem waitDuration_spec_witness :
    waitDuration (some (.num 250)) = some 250
    ∧ waitDuration (some (.str "500")) = jsParseInt "500" :=
  ⟨waitDuration_spec.1 250, waitDuration_spec.2.1 "500" (by decide)⟩

/-- C5 (counterexample): the claim caps the recorded html at 50000
characters, but on a 50001-character body the code truncates to 50000 and
then appends the 18-character `<!-- truncated -->` marker, producing 50018
characters. -/
theorem truncateBodyHtml_over_cx :
    (truncateBodyHtml (List.replicate 50001 'a')).length = 50018
    ∧ 50000 < 50018 := by
  constructor
  · unfold truncateBodyHtml
    rw [if_pos (show (List.replicate 50001 'a').length > 50000 by
      rw [List.length_replicate]; decide)]
    rw [List.length_append, List.length_take, List.length_replicate]
    decide
  · decide

/-- C5 (amended): the recorded html never exceeds 50018 characters —
50000 characters of stripped body markup plus the truncation marker
(untruncated bodies pass through unchanged, and the no-body fallback takes
at most 50000 characters of the document markup). -/
theorem simplifiedHtml_length_le (body : Option (List Char)) (docInner : List Char) :
    (simplifiedHtml body docInner).length ≤ 50018 := by
  cases body with
  | none =>
    simp only [simplifiedHtml]
    have := List.length_take_le 50000 docInner
    omega
  | some b =>
    simp only [simplifiedHtml, truncateBodyHtml]
    split
    · have h1 := List.length_take_le 50000 b
      have h2 : truncMarker.length = 18 := by decide
      simp only [List.length_append]
      omega
    · omega

/-- C7: the Locator Resolver sends `'text="Login"'` to a text locator that
matches exactly the elements whose text content contains `"Login"`, and
sends `'a, text="Login"'` to a logical OR that matches an element iff it
matches the structural selector `a` or has that text. -/
theorem smartLocator_text_matching (cssSem : String → DomElem → Bool) (e : DomElem) :
    smartLocator "text=\"Login\"" = Locator.byText "Login"
    ∧ locMatches cssSem (smartLocator "text=\"Login\"") e = jsIncludes e.textContent "Login"
    ∧ smartLocator "a, text=\"Login\"" = Locator.or (.css "a") (.byText "Login")
    ∧ locMatches cssSem (smartLocator "a, text=\"Login\"") e
        = (cssSem "a" e || jsIncludes e.textContent "Login") := by
  refine ⟨by decide, ?_, by decide, ?_⟩
  · have h : smartLocator "text=\"Login\"" = Locator.byText "Login" := by decide
    rw [h]
    rfl
  · have h : smartLocator "a, text=\"Login\"" = Locator.or (.css "a") (.byText "Login") := by
      decide
    rw [h]
    rfl


/-! ### String-shape helpers for selector claims -/

theorem string_data_append (s t : String) : (s ++ t).data = s.data ++ t.data := rfl

theorem ne_of_head {s t : String} (h : s.data.head? ≠ t.data.head?) : s ≠ t :=
  fun he => h (by rw [he])

theorem append_head (s t : String) (c : Char) (h : s.data.head? = some c) :
    (s ++ t).data.head? = some c := by
  rw [string_data_append]
  cases hs : s.data with
  | nil => rw [hs] at h; simp at h
  | cons a as =>
    rw [hs] at h
    simpa using h

/-- Two appends differ when their leading characters differ. -/
theorem append_ne_append_of_head (c d : Char) (hcd : c ≠ d) (s t u v : String)
    (hs : s.data.head? = some c) (hu : u.data.head? = some d) : s ++ t ≠ u ++ v := by
  apply ne_of_head
  rw [append_head s t c hs, append_head u v d hu]
  simp [hcd]

/-- A string differs from an append whose leading character differs. -/
theorem ne_append_of_head (c d : Char) (hcd : c ≠ d) (s u v : String)
    (hs : s.data.head? = some c) (hu : u.data.head? = some d) : s ≠ u ++ v := by
  apply ne_of_head
  rw [append_head u v d hu, hs]
  simp [hcd]

/-- An append whose right part contains a space cannot be `"#" ++ id` for a
space-free `id`. -/
theorem append_ne_hash_of_space (a b id : String) (hb : ' ' ∈ b.data)
    (hid : ' ' ∉ id.data) : a ++ b ≠ "#" ++ id := by
  intro he
  have hmem : ' ' ∈ (a ++ b).data := by
    rw [string_data_append]; exact List.mem_append_right _ hb
  rw [he, string_data_append] at hmem
  rcases List.mem_append.mp hmem with h | h
  · have h1 : "#".data = ['#'] := rfl
    rw [h1] at h
    simp at h
  · exact hid h

/-! ## Claim theorems: colon ids and the Selector Synthesizer (C3) -/

/-- C3 (counterexample): the claim says no collected element with a
colon-containing id ever gets a bare `#id` selector, but the link extractor
has no colon guard: a link with id `:r2:` (no test id) is synthesized as
`#:r2:`. -/
theorem linkSelector_colon_id_cx :
    jsIncludes ":r2:" ":" = true
    ∧ linkSelector { dataTestid := "", id := ":r2:", href := "/home", textContent := "Home" } 0
        = "#" ++ ":r2:" := by
  decide

/-- C3 (amended): the colon guard exists only in the two input extractors —
for every form input and every standalone input whose id contains `:` (and,
as for any valid HTML id, no space), the synthesized selector is never the
bare `#id` selector.  Links and buttons keep using `#id` regardless of
colons. -/
theorem inputSelector_colon_never_id (formSel : String) (e : InputElem) (j : Nat)
    (hc : jsIncludes e.id ":" = true) (hsp : ' ' ∉ e.id.data) :
    formInputSelector formSel e j ≠ "#" ++ e.id
    ∧ standaloneInputSelector e ≠ "#" ++ e.id := by
  have hcore : formInputSelectorCore formSel e ≠ "#" ++ e.id := by
    unfold formInputSelectorCore
    split_ifs with h1 h2 h3 h4 h5 h6 h7 h8
    · exact append_ne_append_of_head '[' '#' (by decide) _ _ _ _ rfl rfl
    · exact append_ne_append_of_head '[' '#' (by decide) _ _ _ _ rfl rfl
    · exact append_ne_append_of_head '[' '#' (by decide) _ _ _ _ rfl rfl
    · exact append_ne_append_of_head 't' '#' (by decide) _ _ _ _ rfl rfl
    · exact ne_append_of_head 'i' '#' (by decide) _ _ _ rfl rfl
    · exact ne_append_of_head 'i' '#' (by decide) _ _ _ rfl rfl
    · rw [hc] at h7; simp at h7
    · exact append_ne_hash_of_space _ _ _
        (by rw [string_data_append]; exact List.mem_append_left _ (by decide)) hsp
    · apply ne_of_head
      rw [append_head "#" e.id '#' rfl]
      decide
  constructor
  · unfold formInputSelector
    split_ifs with h0
    · exact append_ne_hash_of_space _ _ _
        (by rw [string_data_append]; exact List.mem_append_left _ (by decide)) hsp
    · exact hcore
  · unfold standaloneInputSelector
    split_ifs with h1 h2 h3 h4 h5 h6
    · exact append_ne_append_of_head '[' '#' (by decide) _ _ _ _ rfl rfl
    · exact append_ne_append_of_head '[' '#' (by decide) _ _ _ _ rfl rfl
    · exact append_ne_append_of_head '[' '#' (by decide) _ _ _ _ rfl rfl
    · exact ne_append_of_head 'i' '#' (by decide) _ _ _ rfl rfl
    · exact ne_append_of_head 'i' '#' (by decide) _ _ _ rfl rfl
    · rw [hc] at h6; simp at h6
    · apply ne_of_head
      rw [append_head "#" e.id '#' rfl]
      decide

/-- C3 witness: the amended statement applied to a React-style generated id
`:r2:` on an otherwise attribute-free input inside a form. -/
theorem inputSelector_colon_never_id_witness :
    formInputSelector "form >> nth=0"
        { dataTestid := "", nameAttr := "", placeholder := "", id := ":r2:",
          typeAttr := "text", tagName := "INPUT", labelForText := "",
          parentLabelText := "" } 0 ≠ "#" ++ ":r2:"
    ∧ standaloneInputSelector
        { dataTestid := "", nameAttr := "", placeholder := "", id := ":r2:",
          typeAttr := "text", tagName := "INPUT", labelForText := "",
          parentLabelText := "" } ≠ "#" ++ ":r2:" :=
  inputSelector_colon_never_id "form >> nth=0"
    { dataTestid := "", nameAttr := "", placeholder := "", id := ":r2:",
      typeAttr := "text", tagName := "INPUT", labelForText := "",
      parentLabelText := "" } 0 (by decide) (by decide)

/-! ## Claim theorem: post-submit login URL means failure (C8) -/

/-- C8: whenever the pipeline reaches the post-submit check and the page
URL still contains `/login` or `/signin`, `authenticate` returns
`success = false`, with the error text taken from the 1-second-timeout
probe of an adjacent error/alert element (falling back to a fixed message
when the probe finds nothing). -/
theorem authenticate_still_on_login_fails (env : AuthEnv) (baseUrl : String)
    (c : CrawlCredentials)
    (hok : authSteps env baseUrl c = .ok ())
    (hurl : jsIncludes env.pageUrl "/login" = true ∨ jsIncludes env.pageUrl "/signin" = true) :
    authenticate env baseUrl c =
      { success := false, postLoginUrl := none,
        error := some (probedError (env.errorProbe 1000)) } := by
  unfold authenticate
  rw [hok]
  rcases hurl with h | h <;> simp [h]


/-- C8 witness: the theorem applied to the concrete failed-login run. -/
theorem authenticate_still_on_login_fails_witness :
    authenticate authEnvW "https://app.example" credsW =
      { success := false, postLoginUrl := none, error := some "Invalid credentials" } := by
  rw [authenticate_still_on_login_fails authEnvW "https://app.example" credsW rfl
    (Or.inl (by decide))]
  decide

/-! ## Claim theorems: Flow Executor (C1, C6, C9, C10) -/

/-- C1 (counterexample): for the 3-step flow navigate / fill / click with
the click failing, the returned payload records three `StepResult` entries
(navigate passed, fill passed, click failed), not the two the claim
states. -/
theorem executeFlows_two_results_cx :
    ((executeFlows envC1 [flowC1] "http://app" 100000 none ["desktop"] 0).results.map
      (fun p => p.steps.length)) = [3]
    ∧ (3 : Nat) ≠ 2 := by
  decide

/-- C1 (amended): for every flow of the form
`[navigate, fill(selector=A), click(selector=B)]` in an environment where
the navigation and fill succeed and the click fails, `executeFlows` returns
exactly one `ResultPayload` for that flow/viewport, with `status = failed`,
exactly **three** `StepResult` entries (passed, passed, failed — the
failing click's own result is recorded and nothing would run after it), and
exactly one screenshot path naming the flow id, the viewport and the
failing step's index 2. -/
theorem executeFlows_failfast_records_three
    (env : ExecEnv) (baseUrl : String) (maxDur : Nat) (acct : Option TestAccount)
    (fid fname rsn : String) (prio : Int) (v w : JsVal) (a b : String)
    (d1 d2 d3 : String) (vp : String) (t0 : Nat) (m : String)
    (hnav : ∀ t, (env.step t (.goto (resolveNavUrl baseUrl (jsValToString v)))).1 = .ok ())
    (hfill : ∀ t, (env.step t (.fill (smartLocator a) (jsValToString w))).1 = .ok ())
    (hclick : ∀ t, (env.step t (.click (smartLocator b))).1 = .error m)
    (hbud : env.initTime ≤ maxDur) :
    (executeFlows env [threeStepFlow fid fname prio rsn v w a b d1 d2 d3]
        baseUrl maxDur acct [vp] t0).results.map ResultPayload.status = ["failed"]
    ∧ (executeFlows env [threeStepFlow fid fname prio rsn v w a b d1 d2 d3]
        baseUrl maxDur acct [vp] t0).results.map (fun p => p.steps.map StepResult.status)
        = [["passed", "passed", "failed"]]
    ∧ (executeFlows env [threeStepFlow fid fname prio rsn v w a b d1 d2 d3]
        baseUrl maxDur acct [vp] t0).results.map (fun p => p.steps.map StepResult.error)
        = [[none, none, some m]]
    ∧ (executeFlows env [threeStepFlow fid fname prio rsn v w a b d1 d2 d3]
        baseUrl maxDur acct [vp] t0).results.map ResultPayload.screenshot_urls
        = [["./screenshots" ++ "/" ++ fid ++ "-" ++ vp ++ "-failure-" ++ toString (2 : Nat)
            ++ ".png"]]
    ∧ (executeFlows env [threeStepFlow fid fname prio rsn v w a b d1 d2 d3]
        baseUrl maxDur acct [vp] t0).results.map ResultPayload.viewport = [vp] := by
  have hg : ¬ (maxDur < (t0 + env.initTime) - t0) := by
    rw [Nat.add_sub_cancel_left]
    exact not_lt.mpr hbud
  have hso : ∀ tt : Nat,
      (runSteps env baseUrl "./screenshots" fid vp
          [⟨"navigate", none, some v, d1⟩, ⟨"fill", some a, some w, d2⟩,
            ⟨"click", some b, none, d3⟩] 0 tt).steps.map StepResult.status
          = ["passed", "passed", "failed"]
      ∧ (runSteps env baseUrl "./screenshots" fid vp
          [⟨"navigate", none, some v, d1⟩, ⟨"fill", some a, some w, d2⟩,
            ⟨"click", some b, none, d3⟩] 0 tt).steps.map StepResult.error
          = [none, none, some m]
      ∧ (runSteps env baseUrl "./screenshots" fid vp
          [⟨"navigate", none, some v, d1⟩, ⟨"fill", some a, some w, d2⟩,
            ⟨"click", some b, none, d3⟩] 0 tt).shots
          = ["./screenshots" ++ "/" ++ fid ++ "-" ++ vp ++ "-failure-" ++ toString (2 : Nat)
              ++ ".png"]
      ∧ (runSteps env baseUrl "./screenshots" fid vp
          [⟨"navigate", none, some v, d1⟩, ⟨"fill", some a, some w, d2⟩,
            ⟨"click", some b, none, d3⟩] 0 tt).errMsg
          = some ("Step failed: " ++ d3 ++ " - " ++ m) := by
    intro tt
    simp [runSteps, executeStep, hnav, hfill, hclick]
  have hef : ∀ (sst : Option String) (tt : Nat),
      (executeFlow env baseUrl "./screenshots" sst
          (threeStepFlow fid fname prio rsn v w a b d1 d2 d3) vp tt).1.status = "failed"
      ∧ (executeFlow env baseUrl "./screenshots" sst
          (threeStepFlow fid fname prio rsn v w a b d1 d2 d3) vp tt).1.steps.map
          StepResult.status = ["passed", "passed", "failed"]
      ∧ (executeFlow env baseUrl "./screenshots" sst
          (threeStepFlow fid fname prio rsn v w a b d1 d2 d3) vp tt).1.steps.map
          StepResult.error = [none, none, some m]
      ∧ (executeFlow env baseUrl "./screenshots" sst
          (threeStepFlow fid fname prio rsn v w a b d1 d2 d3) vp tt).1.screenshot_urls
          = ["./screenshots" ++ "/" ++ fid ++ "-" ++ vp ++ "-failure-" ++ toString (2 : Nat)
              ++ ".png"]
      ∧ (executeFlow env baseUrl "./screenshots" sst
          (threeStepFlow fid fname prio rsn v w a b d1 d2 d3) vp tt).1.viewport = vp := by
    intro sst tt
    have h := hso (tt + env.openCtx tt (contextOptionsFor sst vp))
    simp [executeFlow, threeStepFlow, h.1, h.2.1, h.2.2.1, h.2.2.2]
  have key : (executeFlows env [threeStepFlow fid fname prio rsn v w a b d1 d2 d3]
        baseUrl maxDur acct [vp] t0).results
      = [(executeFlow env baseUrl "./screenshots"
          (if acct.isSome && env.authOk then some "./scoutai-auth-state.json" else none)
          (threeStepFlow fid fname prio rsn v w a b d1 d2 d3) vp (t0 + env.initTime)).1] := by
    simp only [executeFlows, sortFlowsDesc, insertFlowDesc]
    simp only [runViewports, runFlows, hg, ite_false, if_neg, not_false_eq_true]
    split <;> simp
  refine ⟨?_, ?_, ?_, ?_, ?_⟩ <;> rw [key] <;> simp [hef]

/-- C1 witness: the amended statement at the concrete click-fails
environment, on the mobile viewport. -/
theorem executeFlows_failfast_records_three_witness :
    (executeFlows envC1 [flowC1] "http://app" 100000 none ["mobile"] 0).results.map
        ResultPayload.status = ["failed"]
    ∧ (executeFlows envC1 [flowC1] "http://app" 100000 none ["mobile"] 0).results.map
        (fun p => p.steps.map StepResult.status) = [["passed", "passed", "failed"]]
    ∧ (executeFlows envC1 [flowC1] "http://app" 100000 none ["mobile"] 0).results.map
        (fun p => p.steps.map StepResult.error) = [[none, none, some "element not found"]]
    ∧ (executeFlows envC1 [flowC1] "http://app" 100000 none ["mobile"] 0).results.map
        ResultPayload.screenshot_urls
        = [["./screenshots" ++ "/" ++ "login-flow" ++ "-" ++ "mobile" ++ "-failure-"
            ++ toString (2 : Nat) ++ ".png"]]
    ∧ (executeFlows envC1 [flowC1] "http://app" 100000 none ["mobile"] 0).results.map
        ResultPayload.viewport = ["mobile"] :=
  executeFlows_failfast_records_three envC1 "http://app" 100000 none "login-flow" "Login"
    "" 5 (.str "/") (.str "u@x.test") "#email" "#submit" "open home" "fill email"
    "click submit" "mobile" 0 "element not found"
    (fun _ => rfl) (fun _ => rfl) (fun _ => rfl) (by decide)

/-- Every payload built by `executeFlow` is marked `passed` or `failed`. -/
theorem executeFlow_status_cases (env : ExecEnv) (baseUrl sdir : String)
    (ss : Option String) (f : FlowPlan) (vp : String) (t : Nat) :
    (executeFlow env baseUrl sdir ss f vp t).1.status = "passed"
    ∨ (executeFlow env baseUrl sdir ss f vp t).1.status = "failed" := by
  unfold executeFlow
  dsimp only
  split
  · right; rfl
  · left; rfl

/-- Every payload in a `runFlows` group is marked `passed` or `failed`. -/
theorem runFlows_status (env : ExecEnv) (baseUrl sdir : String) (maxDur startT : Nat)
    (ss : Option String) (vp : String) :
    ∀ (fs : List FlowPlan) (t : Nat) (r : ResultPayload),
      r ∈ (runFlows env baseUrl sdir maxDur startT ss vp fs t).1 →
      r.status = "passed" ∨ r.status = "failed" := by
  intro fs
  induction fs with
  | nil => intro t r hr; simp [runFlows] at hr
  | cons f fs ih =>
    intro t r hr
    simp only [runFlows] at hr
    split at hr
    · simp at hr
    · rcases List.mem_cons.mp hr with h | h
      · rw [h]; exact executeFlow_status_cases env baseUrl sdir ss f vp t
      · exact ih _ _ h

/-- Every payload in a `runViewports` run is marked `passed` or `failed`. -/
theorem runViewports_status (env : ExecEnv) (baseUrl sdir : String) (maxDur startT : Nat)
    (ss : Option String) (sorted : List FlowPlan) :
    ∀ (vps : List String) (t : Nat) (r : ResultPayload),
      r ∈ (runViewports env baseUrl sdir maxDur startT ss sorted vps t).1 →
      r.status = "passed" ∨ r.status = "failed" := by
  intro vps
  induction vps with
  | nil => intro t r hr; simp [runViewports] at hr
  | cons v vs ih =>
    intro t r hr
    simp only [runViewports] at hr
    split at hr
    · exact runFlows_status env baseUrl sdir maxDur startT ss v sorted t r hr
    · rcases List.mem_append.mp hr with h | h
      · exact runFlows_status env baseUrl sdir maxDur startT ss v sorted t r h
      · exact ih _ _ h

/-- C6: once `maxDurationMs` has elapsed before the next flow would start,
that flow and every later one in the group contribute nothing (and time
does not advance); likewise a whole viewport group started after
exhaustion contributes nothing; and no payload `executeFlows` ever returns
carries a `skipped` status — skipped work is simply absent. -/
theorem executeFlows_budget (env : ExecEnv) (flows fs : List FlowPlan)
    (baseUrl sdir : String) (maxDur startT t t0 : Nat) (ss : Option String)
    (vp : String) (vps vps2 : List String) (acct : Option TestAccount)
    (h : maxDur < t - startT) :
    runFlows env baseUrl sdir maxDur startT ss vp fs t = ([], t)
    ∧ runViewports env baseUrl sdir maxDur startT ss fs vps2 t = ([], t)
    ∧ ∀ r ∈ (executeFlows env flows baseUrl maxDur acct vps t0).results,
        r.status = "passed" ∨ r.status = "failed" := by
  have hfl : ∀ (fs' : List FlowPlan),
      runFlows env baseUrl sdir maxDur startT ss vp fs' t = ([], t) := by
    intro fs'
    cases fs' with
    | nil => rfl
    | cons f fs' => simp [runFlows, h]
  refine ⟨hfl fs, ?_, ?_⟩
  · cases vps2 with
    | nil => rfl
    | cons v vs =>
      have hf : runFlows env baseUrl sdir maxDur startT ss v fs t = ([], t) := by
        cases fs with
        | nil => rfl
        | cons f fs' => simp [runFlows, h]
      simp [runViewports, hf, h]
  · intro r hr
    simp only [executeFlows] at hr
    exact runViewports_status env baseUrl "./screenshots" maxDur t0 _ _ vps _ r hr

/-- C6 witness: the theorem at a concrete exhausted clock (budget 5ms,
elapsed 10ms). -/
theorem executeFlows_budget_witness :
    runFlows envOk "http://app" "./screenshots" 5 0 none "desktop" [flowC1] 10 = ([], 10)
    ∧ runViewports envOk "http://app" "./screenshots" 5 0 none [flowC1] ["desktop"] 10
        = ([], 10)
    ∧ ∀ r ∈ (executeFlows envOk [flowC1] "http://app" 5 none ["desktop"] 0).results,
        r.status = "passed" ∨ r.status = "failed" :=
  executeFlows_budget envOk [flowC1] [flowC1] "http://app" "./screenshots" 5 0 10 0 none
    "desktop" ["desktop"] ["desktop"] none (by decide)

/-- C9: `executeFlows` sorts a spread copy of the caller's `flows` array
(`[...flows].sort(...)`), so the array the caller holds after the call is
identical — same order, same contents — to what it passed in. -/
theorem executeFlows_caller_flows_unchanged (env : ExecEnv) (flows : List FlowPlan)
    (baseUrl : String) (maxDur : Nat) (acct : Option TestAccount) (vps : List String)
    (t0 : Nat) :
    (executeFlows env flows baseUrl maxDur acct vps t0).callerFlows = flows := rfl

/-- C10: for a viewport name that is neither `desktop` nor `mobile`,
`executeFlow` silently falls back to the desktop dimensions 1280×720 (and
takes none of the mobile-only context settings), while the returned
payload's `viewport` field carries the unrecognized name verbatim. -/
theorem executeFlow_unknown_viewport (env : ExecEnv) (baseUrl sdir : String)
    (ss : Option String) (flow : FlowPlan) (t : Nat) (v : String)
    (h1 : v ≠ "desktop") (h2 : v ≠ "mobile") :
    viewportDims v = { width := 1280, height := 720 }
    ∧ contextOptionsFor ss v =
        { viewport := { width := 1280, height := 720 }, storageState := ss }
    ∧ (executeFlow env baseUrl sdir ss flow v t).1.viewport = v := by
  refine ⟨?_, ?_, rfl⟩
  · unfold viewportDims VIEWPORTS
    simp [h1, h2]
  · unfold contextOptionsFor viewportDims VIEWPORTS
    simp [h1, h2]

/-- C10 witness: the theorem at the unrecognized viewport name `tablet`. -/
theorem executeFlow_unknown_viewport_witness :
    viewportDims "tablet" = { width := 1280, height := 720 }
    ∧ contextOptionsFor none "tablet" =
        { viewport := { width := 1280, height := 720 }, storageState := none }
    ∧ (executeFlow envOk "http://app" "./screenshots" none flowC1 "tablet" 0).1.viewport
        = "tablet" :=
  executeFlow_unknown_viewport envOk "http://app" "./screenshots" none flowC1 0 "tablet"
    (by decide) (by decide)

/-! ## Claim theorem: crawl budget and canonical-url dedup (C2) -/

/-- Crawl-loop invariant: under the page budget, with deduplicated pages
whose urls are all visited and all resolver outputs, the loop preserves all
three — so the final page list respects the budget, has pairwise-distinct
urls, and contains only resolver outputs. -/
theorem crawlLoop_inv (env : CrawlEnv) (baseUrl : String) (maxPages : Nat)
    (toVisit visited : List String) (pages : List PageContext) :
    ∀ out : List PageContext,
      crawlLoop env baseUrl maxPages toVisit visited pages = .ok out →
      pages.length ≤ maxPages →
      (pages.map PageContext.url).Nodup →
      (∀ u ∈ pages.map PageContext.url, u ∈ visited) →
      (∀ u ∈ pages.map PageContext.url, ∃ s, env.newURL s baseUrl = .ok u) →
      out.length ≤ maxPages
      ∧ (out.map PageContext.url).Nodup
      ∧ (∀ u ∈ out.map PageContext.url, ∃ s, env.newURL s baseUrl = .ok u) := by
  induction toVisit, visited, pages using crawlLoop.induct env baseUrl maxPages with
  | case1 vis pages =>
    intro out hout hlen hnd hvis hres
    rw [crawlLoop] at hout
    simp only [Except.ok.injEq] at hout
    subst hout
    exact ⟨hlen, hnd, hres⟩
  | case2 url rest visited pages hlt e hurl =>
    intro out hout _ _ _ _
    rw [crawlLoop, dif_pos hlt, hurl] at hout
    simp at hout
  | case3 url rest visited pages hlt u hurl hcont ih =>
    intro out hout hlen hnd hvis hres
    rw [crawlLoop, dif_pos hlt, hurl] at hout
    simp only [hcont, if_true] at hout
    exact ih out hout hlen hnd hvis hres
  | case4 url rest visited pages hlt u hurl hcont e hfetch ih =>
    intro out hout hlen hnd hvis hres
    rw [crawlLoop, dif_pos hlt, hurl] at hout
    simp only [hcont, if_false, Bool.false_eq_true, hfetch] at hout
    exact ih out hout hlen hnd
      (fun x hx => List.mem_append_left _ (hvis x hx)) hres
  | case5 url rest visited pages hlt u hurl hcont pd hfetch ih =>
    intro out hout hlen hnd hvis hres
    rw [crawlLoop, dif_pos hlt, hurl] at hout
    simp only [hcont, if_false, Bool.false_eq_true, hfetch] at hout
    have hu_not_vis : u ∉ visited := by
      intro hm
      exact hcont (by simpa [List.contains] using List.elem_iff.mpr hm)
    have hnotin : u ∉ pages.map PageContext.url := fun hm => hu_not_vis (hvis u hm)
    have hmapnew : (pages ++ [mkPage u pd]).map PageContext.url
        = pages.map PageContext.url ++ [u] := by
      rw [List.map_append]; rfl
    refine ih out hout ?_ ?_ ?_ ?_
    · simp only [List.length_append, List.length_singleton]
      omega
    · rw [hmapnew]
      refine List.Nodup.append hnd (List.nodup_singleton u) ?_
      intro x hx hxu
      rw [List.mem_singleton] at hxu
      subst hxu
      exact hnotin hx
    · intro x hx
      rw [hmapnew] at hx
      rcases List.mem_append.mp hx with hx | hx
      · exact List.mem_append_left _ (hvis x hx)
      · rw [List.mem_singleton] at hx
        subst hx
        exact List.mem_append_right _ (List.mem_singleton_self _)
    · intro x hx
      rw [hmapnew] at hx
      rcases List.mem_append.mp hx with hx | hx
      · exact hres x hx
      · rw [List.mem_singleton] at hx
        subst hx
        exact ⟨url, hurl⟩
  | case6 url rest visited pages hnlt =>
    intro out hout hlen hnd hvis hres
    rw [crawlLoop, dif_neg hnlt] at hout
    simp only [Except.ok.injEq] at hout
    subst hout
    exact ⟨hlen, hnd, hres⟩

/-- Analysis of a successful `Except.map`. -/
theorem except_map_ok {α β γ : Type _} (f : α → β) (x : Except γ α) (b : β)
    (h : x.map f = .ok b) : ∃ a, x = .ok a ∧ b = f a := by
  cases x with
  | error e => simp [Except.map] at h
  | ok a =>
    simp only [Except.map, Except.ok.injEq] at h
    exact ⟨a, rfl, h.symm⟩

/-- C2: whenever `crawlSite` returns (for a resolver that is idempotent on
its own outputs, as URL canonicalization is), it returns at most `maxPages`
page contexts, their recorded urls are pairwise distinct, and so are their
canonical forms (each recorded url resolved against the base URL). -/
theorem crawlSite_budget_and_canonical_dedup (env : CrawlEnv) (aenv : AuthEnv)
    (baseUrl : String) (maxPages : Nat) (priorityPaths : List String)
    (credentials : Option CrawlCredentials) (res : CrawlResult)
    (hres : crawlSite env aenv baseUrl maxPages priorityPaths credentials = .ok res)
    (hidem : ∀ s t, env.newURL s baseUrl = .ok t → env.newURL t baseUrl = .ok t) :
    res.pages.length ≤ maxPages
    ∧ (res.pages.map PageContext.url).Nodup
    ∧ (res.pages.map (fun p => env.newURL p.url baseUrl)).Nodup := by
  simp only [crawlSite] at hres
  obtain ⟨pages, hcl, hb⟩ := except_map_ok _ _ _ hres
  subst hb
  have main := crawlLoop_inv env baseUrl maxPages _ [] [] pages hcl (Nat.zero_le _)
    (by simp) (by simp) (by simp)
  refine ⟨main.1, main.2.1, ?_⟩
  have hcanon : pages.map (fun p => env.newURL p.url baseUrl)
      = pages.map (fun p => (Except.ok p.url : Except String String)) := by
    apply List.map_congr_left
    intro p hp
    obtain ⟨s, hs⟩ := main.2.2 p.url (List.mem_map_of_mem _ hp)
    exact hidem s p.url hs
  have hsplit : pages.map (fun p => (Except.ok p.url : Except String String))
      = (pages.map PageContext.url).map Except.ok := by
    rw [List.map_map]
    rfl
  show (pages.map (fun p => env.newURL p.url baseUrl)).Nodup
  rw [hcanon, hsplit]
  exact List.Nodup.map (fun a b hab => by injection hab) main.2.1

/-- C2 witness: a two-page crawl (`/about` priority path, then the base
url) under an identity resolver, via the theorem. -/
theorem crawlSite_budget_and_canonical_dedup_witness :
    crawlResW.pages.length ≤ 2
    ∧ (crawlResW.pages.map PageContext.url).Nodup
    ∧ (crawlResW.pages.map (fun p => crawlEnvW.newURL p.url "https://site")).Nodup :=
  crawlSite_budget_and_canonical_dedup crawlEnvW authEnvW "https://site" 2 ["/about"]
    none crawlResW
    (by simp [crawlSite, crawlLoop, enqueueLinks, crawlEnvW, pdW, crawlResW, mkPage,
      jsOrOpt, jsOr, Except.map])
    (fun _ _ _ => rfl)

end ScoutAI
